import Mathlib

/-
  Shallow embedding of the message construction and dispatch core of the
  Vara-Contract-Utils repository (src/builders/message.rs and the dispatch
  macros in src/macros/).  Byte strings are lists of naturals; the external
  SCALE Encode capability for static strings is a function parameter
  `enc : String -> Bytes`; the encoding of the unit value under SCALE is the
  empty byte string.  Rust panics (gstd ext::panic and Option::unwrap on
  None) are modelled as the `Except.error` branch of the dispatch functions,
  carrying the panic message.
-/

abbrev Bytes := List Nat
abbrev ActorId := Nat
abbrev MessageId := Nat
abbrev ReservationId := Nat

/-- SCALE encoding of the unit value: the empty byte string. -/
def unitEncoding : Bytes := []

/-- The builder state, mirroring struct MessageBuilder in
src/builders/message.rs.  An argument of `add_arg` is represented by its
encoded bytes, since the Encode trait is an external capability. -/
structure MessageBuilder where
  «to» : Option ActorId
  service_name : Option String
  method_name : Option String
  payload : Option Bytes
  delayed_duration : Nat
  value : Nat
  deriving Repr, DecidableEq

/-- MessageBuilder::new. -/
def MessageBuilder.new : MessageBuilder :=
  { «to» := none, service_name := none, method_name := none,
    payload := none, delayed_duration := 0, value := 0 }

/-- MessageBuilder::send_to. -/
def MessageBuilder.send_to (b : MessageBuilder) (dest : ActorId) : MessageBuilder :=
  { b with «to» := some dest }

/-- MessageBuilder::blocks_to_send_delayed_message. -/
def MessageBuilder.blocks_to_send_delayed_message (b : MessageBuilder) (blocks : Nat) : MessageBuilder :=
  { b with delayed_duration := blocks }

/-- MessageBuilder::service_name (the setter). -/
def MessageBuilder.set_service_name (b : MessageBuilder) (s : String) : MessageBuilder :=
  { b with service_name := some s }

/-- MessageBuilder::method_name (the setter). -/
def MessageBuilder.set_method_name (b : MessageBuilder) (m : String) : MessageBuilder :=
  { b with method_name := some m }

/-- MessageBuilder::add_arg: get_or_insert an empty buffer, then
encode_to appends the encoded bytes of the argument at the end. -/
def MessageBuilder.add_arg (b : MessageBuilder) (argEnc : Bytes) : MessageBuilder :=
  { b with payload := some (b.payload.getD [] ++ argEnc) }

/-- MessageBuilder::with_value. -/
def MessageBuilder.with_value (b : MessageBuilder) (value : Nat) : MessageBuilder :=
  { b with value := value }

/-- MessageBuilder::check_data: returns some panic message when the eager
validation halts, none when it passes. -/
def MessageBuilder.check_data (b : MessageBuilder) : Option String :=
  if b.«to».isNone then
    some "Address to send message cant be empty"
  else
    let sails_check_1 := b.service_name.isSome && b.method_name.isNone
    let sails_check_2 := b.service_name.isNone && b.method_name.isSome
    if sails_check_1 || sails_check_2 then
      some "To send a message to a contract, set the service and method name"
    else
      none

/-- The message carried by the Option::unwrap panic in Rust. -/
def unwrapNoneMsg : String := "called Option::unwrap on a None value"

/-- MessageBuilder::get_request.  The source reads:
  let payload = if self.payload.is_none() { self.payload.take().unwrap() }
                else { ().encode() };
so when payload is None the take().unwrap() panics (modelled as none), and
when payload is Some the accumulated bytes are dropped in favour of the
unit encoding.  Then the service and method names, when both set, are
encoded and prepended. -/
def MessageBuilder.get_request (enc : String → Bytes) (b : MessageBuilder) : Option Bytes :=
  match (if b.payload.isNone then b.payload else some unitEncoding) with
  | none => none
  | some payload =>
    match b.service_name, b.method_name with
    | some s, some m => some (enc s ++ enc m ++ payload)
    | _, _ => some payload

/-- The intermediate value computed by the first step of get_request (the
argument-framing step), as the code computes it. -/
def MessageBuilder.frame_payload (b : MessageBuilder) : Option Bytes :=
  if b.payload.isNone then b.payload else some unitEncoding

/-- One invocation of a gstd transport primitive, with all its arguments. -/
inductive DispatchCall where
  | send («to» : ActorId) (request : Bytes) (value : Nat)
  | send_delayed («to» : ActorId) (request : Bytes) (value : Nat) (delay : Nat)
  | send_from_reservation (rid : ReservationId) («to» : ActorId) (request : Bytes) (value : Nat) (delay : Nat)
  | send_for_reply («to» : ActorId) (request : Bytes) (value : Nat) (delay : Nat)
  | send_with_gas_delayed («to» : ActorId) (request : Bytes) (gas : Nat) (value : Nat) (delay : Nat)
  deriving Repr, DecidableEq

/-- MessageBuilder::send, up to the transport boundary: either a fatal halt
(error, with the panic message) or the exact msg::send_bytes invocation. -/
def MessageBuilder.send (enc : String → Bytes) (b : MessageBuilder) : Except String DispatchCall :=
  match b.check_data with
  | some msg => .error msg
  | none =>
    match b.get_request enc with
    | none => .error unwrapNoneMsg
    | some request =>
      match b.«to» with
      | some dest => .ok (.send dest request b.value)
      | none => .error unwrapNoneMsg

/-- MessageBuilder::send_delayed, up to the transport boundary. -/
def MessageBuilder.send_delayed (enc : String → Bytes) (b : MessageBuilder) : Except String DispatchCall :=
  match b.check_data with
  | some msg => .error msg
  | none =>
    match b.get_request enc with
    | none => .error unwrapNoneMsg
    | some request =>
      match b.«to» with
      | some dest => .ok (.send_delayed dest request b.value b.delayed_duration)
      | none => .error unwrapNoneMsg

/-- MessageBuilder::send_delayed_with_reservation, up to the transport
boundary. -/
def MessageBuilder.send_delayed_with_reservation (enc : String → Bytes) (b : MessageBuilder)
    (reservation_id : ReservationId) : Except String DispatchCall :=
  match b.check_data with
  | some msg => .error msg
  | none =>
    match b.get_request enc with
    | none => .error unwrapNoneMsg
    | some request =>
      match b.«to» with
      | some dest => .ok (.send_from_reservation reservation_id dest request b.value b.delayed_duration)
      | none => .error unwrapNoneMsg

/-- MessageBuilder::send_recv, up to the transport boundary: the source
passes the literal delay 0 to msg::send_bytes_for_reply_as. -/
def MessageBuilder.send_recv_call (enc : String → Bytes) (b : MessageBuilder) : Except String DispatchCall :=
  match b.check_data with
  | some msg => .error msg
  | none =>
    match b.get_request enc with
    | none => .error unwrapNoneMsg
    | some request =>
      match b.«to» with
      | some dest => .ok (.send_for_reply dest request b.value 0)
      | none => .error unwrapNoneMsg

/-- MessageBuilder::send_recv, with the transport supplied: the external
send_bytes_for_reply_as returns either a send-time error or a future whose
await yields either a reply-time error (transport or decode) or the decoded
3-tuple; the method propagates both errors and returns the third component.
The outer Except String is the fatal-halt channel. -/
def MessageBuilder.send_recv {ε R : Type} (enc : String → Bytes)
    (send_bytes_for_reply : ActorId → Bytes → Nat → Nat → Except ε (Except ε (String × String × R)))
    (b : MessageBuilder) : Except String (Except ε R) :=
  match b.check_data with
  | some msg => .error msg
  | none =>
    match b.get_request enc with
    | none => .error unwrapNoneMsg
    | some request =>
      match b.«to» with
      | some dest =>
        .ok (do
          let call ← send_bytes_for_reply dest request b.value 0
          let call_result ← call
          pure call_result.2.2)
      | none => .error unwrapNoneMsg

/-- The send_msg macro (full form), src/macros/send_message.rs: it builds
the request as the concatenation of the encoded service name, the encoded
method name and the encoded payload, and calls msg::send_bytes. -/
def send_msg (enc : String → Bytes) (program_id : ActorId) (service_name method_name : String)
    (payloadEnc : Bytes) (value : Nat) : DispatchCall :=
  .send program_id (enc service_name ++ enc method_name ++ payloadEnc) value

/-- The send_delayed_msg macro (full form),
src/macros/send_message_delayed.rs: the request is the same concatenation;
with Some reservation it calls msg::send_bytes_delayed_from_reservation,
otherwise msg::send_bytes_with_gas_delayed with the gas limit. -/
def send_delayed_msg (enc : String → Bytes) (program_id : ActorId) (service_name method_name : String)
    (with_gas : Nat) (blocks : Nat) (payloadEnc : Bytes) (value : Nat)
    (id_opt : Option ReservationId) : DispatchCall :=
  let request := enc service_name ++ enc method_name ++ payloadEnc
  match id_opt with
  | some reservation_id => .send_from_reservation reservation_id program_id request value blocks
  | none => .send_with_gas_delayed program_id request with_gas value blocks

/-- A concrete encoder used to instantiate theorems at concrete inputs. -/
def encLen : String → Bytes := fun s => [s.length]

/-- Claim C1: with destination set, routing unset and one argument of
encoding [9] appended via add_arg, the framed payload produced at dispatch
time is the unit encoding, not the concatenation of the argument encodings:
get_request discards the accumulated argument bytes. -/
theorem c1_arguments_discarded_at_dispatch :
    ((MessageBuilder.new.send_to 1).add_arg [9]).get_request encLen = some unitEncoding ∧
    unitEncoding ≠ [9] := by
  exact ⟨rfl, by decide⟩

/-- Claim C2: with destination set, routing unset and no argument ever
appended, get_request does not produce the unit encoding: the unwrap on the
empty payload buffer panics, modelled as none, so dispatch cannot proceed
with a unit payload. -/
theorem c2_empty_payload_panics :
    (MessageBuilder.new.send_to 1).get_request encLen = none := rfl

/-- Claim C3: a builder whose destination is set and whose routing is
consistent can still halt fatally outside the eager validation: with no
argument appended, check_data passes, yet send halts with the unwrap panic
instead of returning an ok handle or a recoverable error. -/
theorem c3_valid_builder_still_halts :
    (MessageBuilder.new.send_to 1).check_data = none ∧
    (MessageBuilder.new.send_to 1).send encLen = .error unwrapNoneMsg := ⟨rfl, rfl⟩

/-- Claim C4: whenever the destination is unset, or exactly one of the
service and method names is set, each of the four dispatch operations halts
fatally with the descriptive message produced by the eager validation
check_data, before producing any transport invocation. -/
theorem c4_invalid_config_every_dispatch_halts (enc : String → Bytes)
    (b : MessageBuilder) (rid : ReservationId)
    (h : b.«to» = none ∨ b.service_name.isSome ≠ b.method_name.isSome) :
    ∃ m, b.check_data = some m ∧
      b.send enc = .error m ∧
      b.send_delayed enc = .error m ∧
      b.send_delayed_with_reservation enc rid = .error m ∧
      b.send_recv_call enc = .error m := by
  have hcd : ∃ m, b.check_data = some m := by
    unfold MessageBuilder.check_data
    rcases h with h | h
    · simp [h]
    · by_cases hto : b.«to».isNone
      · rw [if_pos hto]; exact ⟨_, rfl⟩
      · rw [if_neg hto]
        rcases hs : b.service_name with _ | s <;>
          rcases hmn : b.method_name with _ | mn <;> simp_all
  obtain ⟨m, hm⟩ := hcd
  refine ⟨m, hm, ?_, ?_, ?_, ?_⟩ <;>
    simp [MessageBuilder.send, MessageBuilder.send_delayed,
      MessageBuilder.send_delayed_with_reservation, MessageBuilder.send_recv_call, hm]

/-- Witness for claim C4, at the fresh builder, whose destination is unset. -/
theorem c4_witness :
    ∃ m, MessageBuilder.new.check_data = some m ∧
      MessageBuilder.new.send encLen = .error m ∧
      MessageBuilder.new.send_delayed encLen = .error m ∧
      MessageBuilder.new.send_delayed_with_reservation encLen 0 = .error m ∧
      MessageBuilder.new.send_recv_call encLen = .error m :=
  c4_invalid_config_every_dispatch_halts encLen MessageBuilder.new 0 (Or.inl rfl)

/-- Claim C5: at dispatch time, whenever the argument-framing step yields a
payload p, the final wire payload is the raw concatenation of the encoded
service name, the encoded method name and p when both routing names are set
(no length prefixes between the segments), and is exactly p when routing is
unset. -/
theorem c5_routing_concatenation (enc : String → Bytes) (b : MessageBuilder) (p : Bytes)
    (hp : b.frame_payload = some p) :
    (∀ s m, b.service_name = some s → b.method_name = some m →
      b.get_request enc = some (enc s ++ enc m ++ p)) ∧
    (b.service_name = none → b.method_name = none → b.get_request enc = some p) := by
  rcases hpay : b.payload with _ | v
  · simp [MessageBuilder.frame_payload, hpay] at hp
  · simp [MessageBuilder.frame_payload, hpay] at hp
    subst hp
    refine ⟨?_, ?_⟩
    · intro s m hs hm
      simp [MessageBuilder.get_request, hpay, hs, hm]
    · intro hs hm
      simp [MessageBuilder.get_request, hpay, hs, hm]

/-- Witness for claim C5, at a builder with one appended argument, for which
the framing step yields the unit encoding. -/
theorem c5_witness :
    (∀ s m, ((MessageBuilder.new.send_to 1).add_arg [2]).service_name = some s →
      ((MessageBuilder.new.send_to 1).add_arg [2]).method_name = some m →
      ((MessageBuilder.new.send_to 1).add_arg [2]).get_request encLen =
        some (encLen s ++ encLen m ++ unitEncoding)) ∧
    (((MessageBuilder.new.send_to 1).add_arg [2]).service_name = none →
      ((MessageBuilder.new.send_to 1).add_arg [2]).method_name = none →
      ((MessageBuilder.new.send_to 1).add_arg [2]).get_request encLen = some unitEncoding) :=
  c5_routing_concatenation encLen ((MessageBuilder.new.send_to 1).add_arg [2]) unitEncoding rfl

/-- A concrete request-reply transport whose reply decodes to the tuple
("S", "M", 42). -/
def replyTransport42 : ActorId → Bytes → Nat → Nat → Except Nat (Except Nat (String × String × Nat)) :=
  fun _ _ _ _ => .ok (.ok ("S", "M", 42))

/-- Claim C6: a validly configured builder (destination set, both routing
names set, so check_data passes) on which no argument was appended does not
dispatch through the request-reply transport and does not return the
decoded reply or an error value: send_recv halts fatally with the unwrap
panic in get_request, even against a transport that would reply
("S", "M", 42). -/
theorem c6_send_recv_halts_without_args :
    (((MessageBuilder.new.send_to 1).set_service_name "S").set_method_name "M").check_data = none ∧
    (((MessageBuilder.new.send_to 1).set_service_name "S").set_method_name "M").send_recv
      encLen replyTransport42 = .error unwrapNoneMsg := ⟨rfl, rfl⟩

/-- Claim C7: a validly configured builder (destination set, routing unset,
so check_data passes) on which no argument was appended never invokes the
reservation-funded delayed transport path: send_delayed_with_reservation
with token 7 halts fatally with the unwrap panic in get_request. -/
theorem c7_reservation_halts_without_args :
    (MessageBuilder.new.send_to 2).check_data = none ∧
    (MessageBuilder.new.send_to 2).send_delayed_with_reservation encLen 7 =
      .error unwrapNoneMsg := ⟨rfl, rfl⟩

/-- Claim C8: a validly configured builder with delay 5 on which no
argument was appended never invokes the delayed transport dispatch:
send_delayed halts fatally with the unwrap panic in get_request rather than
dispatching once with block offset 5. -/
theorem c8_send_delayed_halts_without_args :
    ((MessageBuilder.new.send_to 3).blocks_to_send_delayed_message 5).check_data = none ∧
    ((MessageBuilder.new.send_to 3).blocks_to_send_delayed_message 5).delayed_duration = 5 ∧
    ((MessageBuilder.new.send_to 3).blocks_to_send_delayed_message 5).send_delayed encLen =
      .error unwrapNoneMsg := ⟨rfl, rfl, rfl⟩

/-- Claim C9: the send_msg macro and the builder configured with the same
destination, routing, argument and value do not dispatch the same wire
payload: with one argument of encoding [9], the macro sends the argument
encoding after the routing names, while the builder drops it and sends the
unit encoding instead, so the two dispatches differ. -/
theorem c9_macro_and_builder_disagree :
    send_msg encLen 1 "S" "M" [9] 0 = .send 1 (encLen "S" ++ encLen "M" ++ [9]) 0 ∧
    (((((MessageBuilder.new.send_to 1).set_service_name "S").set_method_name "M").add_arg
        [9]).with_value 0).send encLen =
      .ok (.send 1 (encLen "S" ++ encLen "M" ++ unitEncoding) 0) ∧
    (encLen "S" ++ encLen "M" ++ ([9] : Bytes)) ≠ (encLen "S" ++ encLen "M" ++ unitEncoding) := by
  refine ⟨rfl, rfl, by decide⟩

/-- Claim C10: with a Some reservation argument, the dispatch produced by
the send_delayed_msg macro does not depend on the gas-limit argument: two
invocations identical except for with_gas produce identical dispatches. -/
theorem c10_gas_independent_under_reservation (enc : String → Bytes) (payloadEnc : Bytes)
    (program_id : ActorId) (service_name method_name : String)
    (g1 g2 blocks value : Nat) (rid : ReservationId) :
    send_delayed_msg enc program_id service_name method_name g1 blocks payloadEnc value (some rid) =
    send_delayed_msg enc program_id service_name method_name g2 blocks payloadEnc value (some rid) := rfl
